import Mathlib

/-!
Shallow embedding of `lwreport.py` (obachem/lwreport): a library that renders
a tree of report nodes into a single HTML document and saves it to disk in one
of three asset modes (web CDN links, locally materialized assets, or inlined
assets).  Machine strings are Lean `String`s, the filesystem and the URL fetch
cache are explicit state, and Python exceptions are `Except` errors.
-/

/-- Error kinds for the `raise` sites of the source, using the spec's error
taxonomy names: `ValueError` in `_parse_obj` is `unsupportedType`, `ValueError`
in `Grid.__init__` and in `Report.save` is `invalidConfiguration`,
`urllib2` failures are `resourceFetch`, `ImportError` in `Plot._render` /
`MPlot._render` is `plottingUnavailable`. -/
inductive Err where
  | unsupportedType (typeName : String)
  | invalidConfiguration (msg : String)
  | resourceFetch (url : String)
  | plottingUnavailable (msg : String)
  | typeError (msg : String)
deriving DecidableEq, Repr

/-- Availability flags of the optional libraries, mirroring the module-level
`_MPL`, `_PLY`, `_NPY`, `_PDS` booleans set by the guarded imports. -/
structure Env where
  mpl : Bool
  ply : Bool
  npy : Bool
  pds : Bool
deriving DecidableEq, Repr

/-- The render tree: one constructor per concrete `RenderObject` subclass.

* `string` — class `String` (raw text, no escaping);
* `p` — class `P`, holding its already-parsed child;
* `dict` — class `Dict`; entries carry `str(k)` and `str(v)`;
* `heading` — class `Heading` (title plus children);
* `grid` — class `Grid` (validated column count plus children);
* `array` — class `Array`; the two payloads are the outputs of the external
  pandas formatting (`df.to_html`) and of `str(a)`, the two branches of
  `Array._render`;
* `dframe` — class `DFrame`, payloads as for `array`;
* `plot` / `mplot` — classes `Plot` and `MPlot`; the payload is the fragment
  produced by the external plotting capability (`plotly.offline.plot`). -/
inductive RObj where
  | string (text : String)
  | p (child : RObj)
  | dict (entries : List (String × String))
  | heading (title : String) (children : List RObj)
  | grid (n_cols : Nat) (children : List RObj)
  | array (html strForm : String)
  | dframe (html strForm : String)
  | plot (div : String)
  | mplot (div : String)

/-- A Python runtime value as seen by the dispatcher `_parse_obj`: an instance
of `RenderObject`, a string / int / float, an instance of one of the four
optional-library types (with the payloads the corresponding `RenderObject`
wrapper keeps, see `RObj`), or a value of any other type, carried as the name
`type(obj)` prints. `pfloat` carries `str(value)`, since the dispatcher only
ever stringifies it. -/
inductive PyVal where
  | renderObj (r : RObj)
  | pstr (s : String)
  | pint (n : Int)
  | pfloat (repr : String)
  | ndarray (html strForm : String)
  | dataframe (html strForm : String)
  | goFigure (div : String)
  | mplFigure (div : String)
  | other (typeName : String)

/-- The name `type(obj)` prints, as interpolated into the `_parse_obj` error message. -/
def py_type : PyVal → String
  | .renderObj _ => "<class \x27lwreport.RenderObject\x27>"
  | .pstr _ => "<type \x27str\x27>"
  | .pint _ => "<type \x27int\x27>"
  | .pfloat _ => "<type \x27float\x27>"
  | .ndarray _ _ => "<type \x27numpy.ndarray\x27>"
  | .dataframe _ _ => "<class \x27pandas.core.frame.DataFrame\x27>"
  | .goFigure _ => "<class \x27plotly.graph_objs.Figure\x27>"
  | .mplFigure _ => "<class \x27matplotlib.figure.Figure\x27>"
  | .other t => t

/-- Model of `_parse_obj`: convert supported types into a `RenderObject`, otherwise
raise `ValueError` with a message naming the unsupported runtime type.
The `isinstance` chain is checked in source order; the optional-library rules
only fire when the corresponding availability flag is set. -/
def parse_obj (env : Env) : PyVal → Except Err RObj
  | .renderObj r => .ok r
  | .pstr s => .ok (.string s)
  | .pint n => .ok (.string (toString n))
  | .pfloat r => .ok (.string r)
  | .ndarray html strForm =>
      if env.npy then .ok (.array html strForm)
      else .error (.unsupportedType (py_type (.ndarray html strForm)))
  | .dataframe html strForm =>
      if env.pds then .ok (.dframe html strForm)
      else .error (.unsupportedType (py_type (.dataframe html strForm)))
  | .goFigure div =>
      if env.ply then .ok (.plot div)
      else .error (.unsupportedType (py_type (.goFigure div)))
  | .mplFigure div =>
      if env.mpl then .ok (.mplot div)
      else .error (.unsupportedType (py_type (.mplFigure div)))
  | .other t => .error (.unsupportedType t)

/-- Model of `Node.add`: appends `_parse_obj(child)` to `self.children` and returns
`child` — the original argument object, exactly as written in the source
(`return child`).  The result is the updated children list paired with the
returned Python value. -/
def Node_add (env : Env) (children : List RObj) (child : PyVal) :
    Except Err (List RObj × PyVal) :=
  match parse_obj env child with
  | .error e => .error e
  | .ok node => .ok (children ++ [node], child)

/-- The CSS class string `_TABLE_CLS`. -/
def TABLE_CLS : String :=
  "table table-condensed table-striped table-hover table-bordered"

/-- One `<tr>` row of `Dict._render`. -/
def dict_row (kv : String × String) : String :=
  "<tr><th><b>" ++ kv.1 ++ "</b></th><td>" ++ kv.2 ++ "</td></tr>"

/-- Substitution of `_HEADING_TEMPLATE` with the title, content and level. -/
def HEADING_TEMPLATE (n : Nat) (title content : String) : String :=
  "<div><h" ++ toString n ++ ">" ++ title ++ "</h" ++ toString n ++ ">" ++
    content ++ "</div>"

/-- The row-opening marker `Grid._render` appends when `i % k == 0`. -/
def row_open : String := "<div class=\x27row\x27>"

/-- The row-closing marker `Grid._render` appends at the end of a row. -/
def row_close : String := "</div>"

/-- The column wrapper div of class col-md sized `12 / k` around a rendered
child (`12 / k` is Python 2 integer division). -/
def col_piece (k : Nat) (c : String) : String :=
  "<div class=\x27col-md-" ++ toString (12 / k) ++ "\x27>" ++ c ++ "</div>"

mutual

/-- Model of `_render(level)` for each `RenderObject` subclass.  `Plot` and `MPlot`
raise `ImportError("Plotly library could not be loaded!")` when plotly is
unavailable; `Array` and `DFrame` fall back to `str(...)` when pandas is
unavailable. -/
def render (env : Env) : RObj → Nat → Except Err String
  | .string t, _ => .ok t
  | .p c, level =>
      match render env c level with
      | .error e => .error e
      | .ok s => .ok ("<p>" ++ s ++ "</p>")
  | .dict entries, _ =>
      .ok ("<table class=\x27" ++ TABLE_CLS ++ "\x27><tbody>" ++
        String.join (entries.map dict_row) ++ "</tbody></table>")
  | .heading title cs, level =>
      match render_children env cs (level + 1) with
      | .error e => .error e
      | .ok content => .ok (HEADING_TEMPLATE level title content)
  | .grid k cs, level =>
      match render_grid env k cs.length cs 0 level with
      | .error e => .error e
      | .ok pieces => .ok (String.join pieces)
  | .array html strForm, _ =>
      .ok (if env.pds
        then "<div class=\x27table-responsive\x27>" ++ html ++ "</div>"
        else strForm)
  | .dframe html strForm, _ =>
      .ok (if env.pds
        then "<div class=\x27table-responsive\x27>" ++ html ++ "</div>"
        else strForm)
  | .plot div, _ =>
      if env.ply then .ok div
      else .error (.plottingUnavailable "Plotly library could not be loaded!")
  | .mplot div, _ =>
      if env.ply then .ok div
      else .error (.plottingUnavailable "Plotly library could not be loaded!")

/-- Model of `Node._render_children(level)`: the join of the rendered
children in order; a child exception aborts the whole join. -/
def render_children (env : Env) : List RObj → Nat → Except Err String
  | [], _ => .ok ""
  | c :: rest, level =>
      match render env c level with
      | .error e => .error e
      | .ok s =>
          match render_children env rest level with
          | .error e => .error e
          | .ok t => .ok (s ++ t)

/-- The loop body of `Grid._render`, producing the list `r` of string pieces
that the source joins: at index `i` (with `n = len(self.children)`), a row
opener when `i % k == 0`, the column wrapper around the rendered child, and a
row closer when `(i + 1) % k == 0 or i + 1 == n`. -/
def render_grid (env : Env) (k n : Nat) :
    List RObj → Nat → Nat → Except Err (List String)
  | [], _, _ => .ok []
  | c :: rest, i, level =>
      match render env c level with
      | .error e => .error e
      | .ok s =>
          match render_grid env k n rest (i + 1) level with
          | .error e => .error e
          | .ok tail =>
              .ok ((if i % k == 0 then [row_open] else []) ++
                [col_piece k s] ++
                (if (i + 1) % k == 0 || i + 1 == n then [row_close] else []) ++
                tail)

end

/-- Model of `Grid.__init__`: accept `n_cols` only from `[1, 2, 3, 4, 6, 12]`,
otherwise raise `ValueError`.  Python ints are modelled as `Int`. -/
def Grid_init (n_cols : Int) : Except Err Int :=
  if n_cols ∈ ([1, 2, 3, 4, 6, 12] : List Int) then .ok n_cols
  else .error (.invalidConfiguration
    "Number of columns needs to be in [1, 2, 3, 4, 6, 12]!")

/-! ## Slug and filename derivation (`Report.save`, lines 163-168) -/

/-- Python 2 `\w` without `re.UNICODE`: ASCII letters, digits, underscore. -/
def is_word_char (c : Char) : Bool := c.isAlpha || c.isDigit || c == '_'

/-- Python 2 `\s` (and the default `str.strip` set): space, tab, newline,
carriage return, vertical tab, form feed. -/
def is_space_char (c : Char) : Bool :=
  c == ' ' || c == '\t' || c == '\n' || c == '\r' || c == '\x0b' || c == '\x0c'

/-- Removal step of the slug, `_re1.sub` with pattern `[^\w\s-]`: delete
every character that is not a word character, whitespace, or a hyphen. -/
def re1_sub (s : String) : String :=
  String.mk (s.data.filter (fun c => is_word_char c || is_space_char c || c == '-'))

/-- Python `str.strip()`: drop leading and trailing whitespace. -/
def py_strip (s : String) : String :=
  String.mk (((s.data.dropWhile is_space_char).reverse.dropWhile is_space_char).reverse)

/-- The machine of `_re2.sub` with pattern `[\s]+` and an underscore as the
replacement: replace every maximal whitespace run by a single underscore.  The flag
records whether the scan is inside a whitespace run whose underscore has
already been emitted. -/
def re2_core : Bool → List Char → List Char
  | _, [] => []
  | inRun, c :: rest =>
      if is_space_char c then
        if inRun then re2_core true rest else '_' :: re2_core true rest
      else c :: re2_core false rest

/-- Collapse step of the slug, `_re2.sub` with an underscore. -/
def re2_sub (l : List Char) : List Char := re2_core false l

/-- The default filename of `Report.save`: the removal step, then the strip,
then the collapse step applied to the title, followed by the html suffix. -/
def default_filename (title : String) : String :=
  String.mk (re2_sub (py_strip (re1_sub title)).data) ++ ".html"

/-- The filename derivation as the claim words it (spec §6 filename
convention): removal of all non-word/non-space/non-hyphen characters, then
collapse of whitespace runs to a single underscore — with no strip step. -/
def claim_filename (title : String) : String :=
  String.mk (re2_sub (re1_sub title).data) ++ ".html"

/-! ## Timestamp prefix (`time.strftime("%Y_%m_%d-%H_%M_%S-")`) -/

/-- A broken-down local time, the input of `time.strftime`. -/
structure Tm where
  year : Nat
  month : Nat
  day : Nat
  hour : Nat
  minute : Nat
  sec : Nat
deriving DecidableEq, Repr

/-- The `k` zero-padded decimal digits of `n` (for `n < 10 ^ k`),
big-endian. -/
def digitsBE : Nat → Nat → List Char
  | 0, _ => []
  | k + 1, n => Nat.digitChar (n / 10 ^ k) :: digitsBE k (n % 10 ^ k)

/-- Modelled from the spec: `time.strftime` is an external stdlib call; for
the fixed format `"%Y_%m_%d-%H_%M_%S-"` it prints each field as a zero-padded
decimal number (4 digits for the year, 2 for the rest), joined by the format's
literal separators. -/
def strftime_pfx (t : Tm) : String :=
  String.mk (digitsBE 4 t.year ++ ['_'] ++ digitsBE 2 t.month ++ ['_'] ++
    digitsBE 2 t.day ++ ['-'] ++ digitsBE 2 t.hour ++ ['_'] ++
    digitsBE 2 t.minute ++ ['_'] ++ digitsBE 2 t.sec ++ ['-'])

/-! ## Default path handling (`set_path`, `get_path`) -/

/-- Model of `os.path.expanduser`: replace a leading `~` (bare or followed by `/`)
with the home directory; `~user` forms are not modelled. -/
def expanduser (home s : String) : String :=
  match s.data with
  | ['~'] => home
  | '~' :: '/' :: rest => home ++ String.mk ('/' :: rest)
  | _ => s

/-- Model of `set_path(path)`: the body first evaluates
`"Setting default path to ''..." % path`, which raises
`TypeError("not all arguments converted during string formatting")` because
the format string contains no conversion specifier while `path` is a string;
the following `_PATH = path` line is never reached (and, lacking a
`global _PATH` declaration, would only have bound a function-local name).
The module-level `_PATH` is therefore returned unchanged, together with the
raised error. -/
def set_path (PATH : Option String) (path : String) : Option String × Except Err Unit :=
  (PATH, .error (.typeError "not all arguments converted during string formatting"))

/-- Model of `get_path()`: expand the user home in `_PATH` if set, otherwise in the
`LWREPORT_PATH` environment variable, otherwise in `"~/lwreports/"`. -/
def get_path (PATH : Option String) (envvar : Option String) (home : String) : String :=
  expanduser home (match PATH with
    | none => envvar.getD "~/lwreports/"
    | some p => p)

/-! ## URL fetch cache (`_CACHE`, `_get_url`, `_res_filename`) -/

/-- The process-wide `_CACHE` dict, as an association list with most recent
insertion first. -/
abbrev Cache := List (String × String)

/-- First-match association lookup (Python dict read). -/
def find_assoc (l : Cache) (key : String) : Option String :=
  match l with
  | [] => none
  | (k, v) :: rest => if k = key then some v else find_assoc rest key

/-- Model of `_get_url(url)`: return the cached content if present, otherwise call
`urllib2.urlopen(url).read()` (the external network, modelled as
`net : String → Option String`, with `none` for a fetch failure) and cache
the result.  The final component records whether the network was contacted
by this call. -/
def get_url (net : String → Option String) (cache : Cache) (url : String) :
    Except Err String × Cache × Bool :=
  match find_assoc cache url with
  | some content => (.ok content, cache, false)
  | none =>
      match net url with
      | some content => (.ok content, (url, content) :: cache, true)
      | none => (.error (.resourceFetch url), cache, true)

/-- Model of `_res_filename(url, ext)`:
`".%s%s.%s" % (ext, hashlib.md5(_get_url(url)).hexdigest(), ext)`.
The md5 hex digest is an external stdlib primitive, modelled as the function
parameter `md5hex`. -/
def res_filename (md5hex : String → String) (net : String → Option String)
    (cache : Cache) (url ext : String) : Except Err String × Cache :=
  match get_url net cache url with
  | (.ok content, cache1, _) => (.ok ("." ++ ext ++ md5hex content ++ "." ++ ext), cache1)
  | (.error e, cache1, _) => (.error e, cache1)

/-! ## Filesystem model and resource materialization -/

/-- The filesystem: existing directories and files (path, content), with the
most recent write first — so a later write to the same path shadows an
earlier one, like `open(path, "w")`. -/
structure FS where
  dirs : List String
  files : List (String × String)
deriving DecidableEq, Repr

/-- Model of `open(path, "w")` followed by a full write: create or truncate, then write the
whole buffer. -/
def fs_write (fs : FS) (path content : String) : FS :=
  { fs with files := (path, content) :: fs.files }

/-- Directory creation, `os.makedirs(folder)` guarded by an existence test. -/
def mk_dirs (fs : FS) (folder : String) : FS :=
  if folder ∈ fs.dirs then fs else { fs with dirs := folder :: fs.dirs }

/-- Whether a path already ends in the separator. -/
def ends_with_sep (s : String) : Bool :=
  match s.data.getLast? with
  | some '/' => true
  | _ => false

/-- Model of `os.path.join(folder, name)` for a relative `name`. -/
def path_join (a b : String) : String :=
  if ends_with_sep a then a ++ b else a ++ "/" ++ b

/-- The module-level `_CSS` URL list. -/
def CSS : List String := [
  "https://maxcdn.bootstrapcdn.com/bootstrap/3.3.7/css/bootstrap.min.css",
  "https://maxcdn.bootstrapcdn.com/bootstrap/3.3.7/css/bootstrap-theme.min.css",
  "https://cdn.rawgit.com/afeld/bootstrap-toc/v0.4.1/dist/bootstrap-toc.min.css"]

/-- The module-level `_JS` URL list. -/
def JS : List String := [
  "https://ajax.googleapis.com/ajax/libs/jquery/1.12.4/jquery.min.js",
  "https://maxcdn.bootstrapcdn.com/bootstrap/3.3.7/js/bootstrap.min.js",
  "https://cdn.rawgit.com/afeld/bootstrap-toc/v0.4.1/dist/bootstrap-toc.min.js",
  "https://cdn.plot.ly/plotly-latest.min.js"]

/-- Model of `_save_single(folder, url, ext)`: compute the content-addressed name
(which fetches the content for the hash), fetch the content again (a cache
hit), and write it under the joined path.  On a fetch failure the exception
propagates and nothing is written. -/
def save_single (md5hex : String → String) (net : String → Option String)
    (cache : Cache) (fs : FS) (folder url ext : String) :
    Except Err Unit × FS × Cache :=
  match res_filename md5hex net cache url ext with
  | (.error e, cache1) => (.error e, fs, cache1)
  | (.ok fname, cache1) =>
      match get_url net cache1 url with
      | (.error e, cache2, _) => (.error e, fs, cache2)
      | (.ok content, cache2, _) =>
          (.ok (), fs_write fs (path_join folder fname) content, cache2)

/-- One of the two resource loops of `_save_res`: save each URL of the list;
the first failure aborts, keeping the files already written. -/
def save_seq (md5hex : String → String) (net : String → Option String)
    (ext : String) : List String → Cache → FS → String → Except Err Unit × FS × Cache
  | [], cache, fs, _ => (.ok (), fs, cache)
  | u :: rest, cache, fs, folder =>
      match save_single md5hex net cache fs folder u ext with
      | (.error e, fs1, cache1) => (.error e, fs1, cache1)
      | (.ok _, fs1, cache1) => save_seq md5hex net ext rest cache1 fs1 folder

/-- Model of `_save_res(folder)`: materialize all CSS then all JS resources. -/
def save_res (md5hex : String → String) (net : String → Option String)
    (cache : Cache) (fs : FS) (folder : String) : Except Err Unit × FS × Cache :=
  match save_seq md5hex net "css" CSS cache fs folder with
  | (.error e, fs1, cache1) => (.error e, fs1, cache1)
  | (.ok _, fs1, cache1) => save_seq md5hex net "js" JS cache1 fs1 folder

/-! ## Header construction (`_make_header`) -/

/-- The stylesheet link tag of local and web CSS entries. -/
def css_tag (href : String) : String :=
  "<link rel=\"stylesheet\" href=\"" ++ href ++ "\">"

/-- The style tag wrapping integrated CSS content. -/
def css_inline_tag (content : String) : String :=
  "<style type=\"text/css\" media=\"screen\">" ++ content ++ "</style>"

/-- The script tag of local and web JS entries. -/
def js_tag (src : String) : String :=
  "<script src=\"" ++ src ++ "\"></script>"

/-- The script tag wrapping integrated JS content. -/
def js_inline_tag (content : String) : String :=
  "<script>" ++ content ++ "</script>"

/-- The `local` entry of one `_make_header` loop iteration: a reference tag
around the content-addressed filename (which fetches the content for its
hash), or the empty string when `local` is off. -/
def header_local_piece (md5hex : String → String)
    (net : String → Option String) (locl : Bool) (ext : String)
    (refTag : String → String) (c : String) (cache : Cache) :
    Except Err String × Cache :=
  if locl then
    match res_filename md5hex net cache c ext with
    | (.ok fn, ca) => (.ok (refTag fn), ca)
    | (.error e, ca) => (.error e, ca)
  else (.ok "", cache)

/-- The `integrated` entry of one `_make_header` loop iteration: the fetched
content wrapped in an inline tag, or the empty string when `integrated` is
off. -/
def header_inline_piece (net : String → Option String) (integrated : Bool)
    (inlineTag : String → String) (c : String) (cache : Cache) :
    Except Err String × Cache :=
  if integrated then
    match get_url net cache c with
    | (.ok content, ca, _) => (.ok (inlineTag content), ca)
    | (.error e, ca, _) => (.error e, ca)
  else (.ok "", cache)

/-- One of the two loops of `_make_header` (`local` is `locl`, a Lean
keyword): for each URL, append the local content-addressed reference if
`local`, the direct web reference if `web`, and the inlined fetched content
if `integrated` — in that order, non-exclusively. -/
def header_loop (md5hex : String → String) (net : String → Option String)
    (locl web integrated : Bool) (ext : String)
    (refTag inlineTag : String → String) :
    List String → Cache → Except Err String × Cache
  | [], cache => (.ok "", cache)
  | c :: rest, cache =>
      match header_local_piece md5hex net locl ext refTag c cache with
      | (.error e, ca) => (.error e, ca)
      | (.ok s1, cache1) =>
          match header_inline_piece net integrated inlineTag c cache1 with
          | (.error e, ca) => (.error e, ca)
          | (.ok s3, cache3) =>
              match header_loop md5hex net locl web integrated ext refTag
                  inlineTag rest cache3 with
              | (.error e, ca) => (.error e, ca)
              | (.ok srest, ca) =>
                  (.ok (s1 ++ (if web then refTag c else "") ++ s3 ++ srest), ca)

/-- Model of `_make_header(web, local, integrated)`: the CSS loop over `_CSS`, then
the JS loop over `_JS`, concatenated. -/
def make_header (md5hex : String → String) (net : String → Option String)
    (web locl integrated : Bool) (cache : Cache) : Except Err String × Cache :=
  match header_loop md5hex net locl web integrated "css" css_tag
      css_inline_tag CSS cache with
  | (.error e, ca) => (.error e, ca)
  | (.ok cssPart, cache1) =>
      match header_loop md5hex net locl web integrated "js" js_tag
          js_inline_tag JS cache1 with
      | (.error e, ca) => (.error e, ca)
      | (.ok jsPart, ca) => (.ok (cssPart ++ jsPart), ca)

/-! ## Document assembly (`_REPORT_TEMPLATE`, `Report._render`) -/

/-- Substitution of `_REPORT_TEMPLATE`: the full document template, with the
`$$` escapes of the Python template printed as single dollars. -/
def REPORT_TEMPLATE (title header content soft vers time_ : String) : String :=
  "\n<!DOCTYPE html>\n<html lang=\"en\">\n  <head>\n    <meta charset=\"utf-8\">\n    <title>"
  ++ title ++ "</title>\n    " ++ header ++
  "\n    <style type=\"text/css\" media=\"screen\">\n      body \x7bfont-family: \x27Raleway\x27, sans-serif\x7d\n    </style>\n    <script>\n        $(function() \x7b\n            var navSelector = \x27#toc\x27;\n            var $myNav = $(navSelector);\n            Toc.init($myNav);\n            $(\x27body\x27).scrollspy(\x7b\n                target: navSelector\n            \x7d);\n        \x7d);\n     </script>\n  </head>\n  <body data-spy=\"scroll\" data-target=\"#toc\">\n    <div class=\"container\" >\n      <div  class=\"page-header\">\n        <h1 data-toc-skip>"
  ++ title ++
  "</h1>\n      </div>\n      <div class=\"row\">\n         <div class=\"col-md-9\">\n            "
  ++ content ++
  "\n         </div>\n         <div class=\"col-md-3 hidden-print\">\n            <nav id=\"toc\" data-spy=\"affix\"></nav>\n         </div>\n      </div>\n      <hr>\n      <footer>Created with "
  ++ soft ++ " (v" ++ vers ++ ") on " ++ time_ ++
  "</footer>\n    </div>\n  </body>\n</html>\n"

/-- Model of `Report._render(integrated, web, local)`: substitute the title, the
rendered children (at level 1, evaluated first), the module name
(`__name__` = `"lwreport"`), the version (`str(0.1)` = `"0.1"`), the
`time.strftime("%c")` string `time_c`, and the header built by
`_make_header` (evaluated after the children). -/
def report_render (env : Env) (md5hex : String → String)
    (net : String → Option String) (cache : Cache)
    (integrated web locl : Bool) (title : String) (children : List RObj)
    (time_c : String) : Except Err String × Cache :=
  match render_children env children 1 with
  | .error e => (.error e, cache)
  | .ok content =>
      match make_header md5hex net web locl integrated cache with
      | (.error e, ca) => (.error e, ca)
      | (.ok header, ca) =>
          (.ok (REPORT_TEMPLATE title header content "lwreport" "0.1" time_c), ca)

/-! ## `Report.save` -/

deriving instance DecidableEq for Except

/-- The outcome of a `save` call: the normal-or-exceptional result, the
filesystem, and the URL cache. -/
structure SaveOut where
  result : Except Err Unit
  fs : FS
  cache : Cache
deriving DecidableEq, Repr

/-- The `ValueError` message of the mode check in `Report.save`. -/
def mode_error_msg : String :=
  "One of `integrated`, `web` and `local` must be True."

/-- The output path `Report.save` computes (lines 158-168): the resolved
folder joined with the prefix (default: the timestamp) followed by the
filename (default: the slugified title plus `.html`). -/
def save_path (PATH envvar : Option String) (home : String) (now : Tm)
    (title : String) (folder filename pfx : Option String) : String :=
  let folderR := folder.getD (get_path PATH envvar home)
  path_join folderR ((pfx.getD (strftime_pfx now)) ++
    (filename.getD (default_filename title)))

/-- The tail of `Report.save` after folder creation, path derivation and the
mode check: materialize resources when `local`, open the output file
(creating or truncating it), render the document, and write it as one
complete buffer. -/
def save_core (env : Env) (md5hex : String → String)
    (net : String → Option String) (cache : Cache) (fs1 : FS)
    (folderR path : String) (integrated web' locl' : Bool) (title : String)
    (children : List RObj) (time_c : String) : SaveOut :=
  match (if locl' then save_res md5hex net cache fs1 folderR
         else (.ok (), fs1, cache)) with
  | (.error e, fs2, cache2) => ⟨.error e, fs2, cache2⟩
  | (.ok _, fs2, cache2) =>
      match report_render env md5hex net cache2 integrated web' locl' title
          children time_c with
      | (.error e, cache3) => ⟨.error e, fs_write fs2 path "", cache3⟩
      | (.ok doc, cache3) =>
          ⟨.ok (), fs_write (fs_write fs2 path "") path doc, cache3⟩

/-- Model of `Report.save`, step by step in source order: resolve the folder and
create it if absent; compute the output path; normalize the mode flags
(`integrated` forces `web` and `local` off) and raise `ValueError` when none
is selected; then run `save_core` (resource materialization, open, render,
write).  `auto_open` (`webbrowser.open`) happens after the write and is not
modelled. -/
def save (env : Env) (md5hex : String → String) (net : String → Option String)
    (cache : Cache) (fs : FS) (PATH envvar : Option String) (home : String)
    (now : Tm) (time_c : String) (title : String) (children : List RObj)
    (folder filename pfx : Option String) (integrated web locl : Bool) :
    SaveOut :=
  let folderR := folder.getD (get_path PATH envvar home)
  let fs1 := mk_dirs fs folderR
  let path := save_path PATH envvar home now title folder filename pfx
  let web' := if integrated then false else web
  let locl' := if integrated then false else locl
  if web' || integrated || locl' then
    save_core env md5hex net cache fs1 folderR path integrated web' locl'
      title children time_c
  else ⟨.error (.invalidConfiguration mode_error_msg), fs1, cache⟩

/-! ## Claim-side reference definitions -/

/-- The rendered fragments of a list of children, in order (used to state
grid-layout facts relative to successful child rendering). -/
def render_list (env : Env) : List RObj → Nat → Except Err (List String)
  | [], _ => .ok []
  | c :: rest, level =>
      match render env c level with
      | .error e => .error e
      | .ok s =>
          match render_list env rest level with
          | .error e => .error e
          | .ok rs => .ok (s :: rs)

/-- The pure assembler behind `Grid._render`: the list `r` of string pieces
the source builds, given the already-rendered children fragments. -/
def grid_pieces (k n : Nat) : List String → Nat → List String
  | [], _ => []
  | s :: rest, i =>
      (if i % k == 0 then [row_open] else []) ++ [col_piece k s] ++
      (if (i + 1) % k == 0 || i + 1 == n then [row_close] else []) ++
      grid_pieces k n rest (i + 1)

/-- The grid layout exactly as the spec words it: iterate children by index
`i` from 0; before child `i`, open a row wrapper iff `i mod k == 0`; render
the child inside a column wrapper sized `12/k`; after child `i`, close the
row wrapper iff `(i+1) mod k == 0` or `i` is the last index. -/
def grid_spec (k : Nat) (rs : List String) : List String :=
  rs.enum.flatMap (fun p =>
    (if p.1 % k == 0 then [row_open] else []) ++ [col_piece k p.2] ++
    (if (p.1 + 1) % k == 0 || p.1 + 1 == rs.length then [row_close] else []))

/-- Strict lexicographic order on broken-down times: year, then month, day,
hour, minute, second. -/
def tm_lt (a b : Tm) : Prop :=
  a.year < b.year ∨ (a.year = b.year ∧ (a.month < b.month ∨ (a.month = b.month ∧
    (a.day < b.day ∨ (a.day = b.day ∧ (a.hour < b.hour ∨ (a.hour = b.hour ∧
    (a.minute < b.minute ∨ (a.minute = b.minute ∧ a.sec < b.sec)))))))))

/-- Field bounds under which each timestamp field fits its printed digit
width (true of every real calendar time with a four-digit year). -/
def tm_valid (t : Tm) : Prop :=
  t.year < 10000 ∧ t.month < 100 ∧ t.day < 100 ∧ t.hour < 100 ∧
    t.minute < 100 ∧ t.sec < 100

/-! ## Dispatcher theorems (C5, C3) -/

/-- The complement of the dispatch rules of `_parse_obj`: values for which no
`isinstance` rule fires — values of unknown type, or optional-library values
whose library is unavailable in this process. -/
def matches_no_rule (env : Env) : PyVal → Bool
  | .renderObj _ => false
  | .pstr _ => false
  | .pint _ => false
  | .pfloat _ => false
  | .ndarray _ _ => !env.npy
  | .dataframe _ _ => !env.pds
  | .goFigure _ => !env.ply
  | .mplFigure _ => !env.mpl
  | .other _ => true

/-- C5: `normalize(value)` equals the reference dispatcher — a value that is
already a `RenderObject` passes through unchanged; a string, integer, or
floating value is wrapped as `String(str(value))`; every value matching no
rule fails with the unsupported-type error naming the runtime type, and no
node is returned. -/
theorem C5_dispatcher (env : Env) :
    (∀ r, parse_obj env (.renderObj r) = .ok r) ∧
    (∀ s, parse_obj env (.pstr s) = .ok (.string s)) ∧
    (∀ n : Int, parse_obj env (.pint n) = .ok (.string (toString n))) ∧
    (∀ x, parse_obj env (.pfloat x) = .ok (.string x)) ∧
    (∀ v, matches_no_rule env v = true →
      parse_obj env v = .error (.unsupportedType (py_type v))) := by
  refine ⟨fun r => rfl, fun s => rfl, fun n => rfl, fun x => rfl, fun v h => ?_⟩
  cases v <;> simp_all [matches_no_rule, parse_obj, py_type]

/-- C5 witness: the dispatcher of a bare environment rejects a `NoneType`
value with the unsupported-type error. -/
theorem C5_dispatcher_witness :
    parse_obj ⟨false, false, false, false⟩ (.other "<type \x27NoneType\x27>") =
      .error (.unsupportedType "<type \x27NoneType\x27>") :=
  (C5_dispatcher ⟨false, false, false, false⟩).2.2.2.2 _ rfl

/-- C3 counterexample: adding the plain string `"x"` appends the normalized
node `String("x")` but returns the original string value, not the created
`RenderNode` — refuting the claim that `add` returns the normalized node. -/
theorem C3_counterexample :
    Node_add ⟨false, false, false, false⟩ [] (.pstr "x") =
      .ok ([.string "x"], .pstr "x") ∧
    PyVal.pstr "x" ≠ PyVal.renderObj (.string "x") :=
  ⟨rfl, by simp⟩

/-- C3 amended: `add(value)` normalizes `value` through the dispatcher and
appends the result to the children sequence, but returns the original
argument; when the argument is already a `RenderObject` — the only case the
shipped tests chain on — the returned value is that node, so fluent building
works for node arguments. -/
theorem C3_add_appends (env : Env) (children : List RObj) (v : PyVal)
    (node : RObj) (h : parse_obj env v = .ok node) :
    Node_add env children v = .ok (children ++ [node], v) ∧
    (∀ r : RObj, Node_add env children (.renderObj r) =
      .ok (children ++ [r], .renderObj r)) := by
  constructor
  · simp [Node_add, h]
  · intro r; simp [Node_add, parse_obj]

/-- C3 witness: the amended statement applied to the string `"a"` under an
empty children list. -/
theorem C3_add_appends_witness :
    Node_add ⟨false, false, false, false⟩ [] (.pstr "a") =
      .ok ([.string "a"], .pstr "a") :=
  (C3_add_appends ⟨false, false, false, false⟩ [] (.pstr "a") (.string "a") rfl).1

/-! ## Grid construction (C6) -/

/-- C6: constructing a grid with a column count outside `{1,2,3,4,6,12}`
fails with the invalid-configuration error; inside the set, construction
succeeds and the rendered column wrapper carries width `12 / columns`, which
multiplies back to the full 12-unit row. -/
theorem C6_grid_columns :
    (∀ n : Int, n ∉ ([1, 2, 3, 4, 6, 12] : List Int) →
      Grid_init n = .error (.invalidConfiguration
        "Number of columns needs to be in [1, 2, 3, 4, 6, 12]!")) ∧
    (∀ n : Int, n ∈ ([1, 2, 3, 4, 6, 12] : List Int) →
      Grid_init n = .ok n ∧
      (∀ c, col_piece n.toNat c =
        "<div class=\x27col-md-" ++ toString (12 / n.toNat) ++ "\x27>" ++ c ++ "</div>") ∧
      12 / n.toNat * n.toNat = 12) := by
  constructor
  · intro n h
    simp [Grid_init, h]
  · intro n h
    refine ⟨by simp [Grid_init, h], fun c => rfl, ?_⟩
    simp only [List.mem_cons, List.not_mem_nil, or_false] at h
    rcases h with rfl | rfl | rfl | rfl | rfl | rfl <;> decide

/-- C6 witness: 5 columns are rejected, 4 columns are accepted with rendered
width 3. -/
theorem C6_grid_columns_witness :
    Grid_init 5 = .error (.invalidConfiguration
      "Number of columns needs to be in [1, 2, 3, 4, 6, 12]!") ∧
    Grid_init 4 = .ok 4 ∧ 12 / (4 : Int).toNat * (4 : Int).toNat = 12 :=
  ⟨C6_grid_columns.1 5 (by decide), (C6_grid_columns.2 4 (by decide)).1,
    (C6_grid_columns.2 4 (by decide)).2.2⟩

/-! ## Fetch cache (C7) -/

/-- A successful `_get_url` call leaves its URL cached with the returned
content. -/
theorem get_url_caches (net : String → Option String) (cache : Cache)
    (url content : String) (cache1 : Cache) (f : Bool)
    (h : get_url net cache url = (.ok content, cache1, f)) :
    find_assoc cache1 url = some content := by
  unfold get_url at h
  cases hc : find_assoc cache url with
  | some c =>
      rw [hc] at h
      simp only [Prod.mk.injEq, Except.ok.injEq] at h
      obtain ⟨rfl, rfl, -⟩ := h
      exact hc
  | none =>
      rw [hc] at h
      cases hn : net url with
      | some c =>
          rw [hn] at h
          simp only [Prod.mk.injEq, Except.ok.injEq] at h
          obtain ⟨rfl, rfl, -⟩ := h
          simp [find_assoc]
      | none =>
          rw [hn] at h
          simp at h

/-- C7: within one process, a second `_get_url` call for the same URL is a
cache hit — it performs no network fetch, returns content identical to the
first call (whatever the network would now answer), and leaves the cache
unchanged; moreover no call ever evicts or overwrites an existing cache
entry. -/
theorem C7_cache_idempotent (net1 net2 : String → Option String)
    (cache : Cache) (url content : String) (cache1 : Cache) (f1 : Bool)
    (h : get_url net1 cache url = (.ok content, cache1, f1)) :
    get_url net2 cache1 url = (.ok content, cache1, false) ∧
    (∀ (net' : String → Option String) (url' u c : String),
      find_assoc cache u = some c →
      find_assoc (get_url net' cache url').2.1 u = some c) := by
  constructor
  · have hc := get_url_caches net1 cache url content cache1 f1 h
    unfold get_url
    rw [hc]
  · intro net' url' u c hu
    unfold get_url
    cases hc : find_assoc cache url' with
    | some v => exact hu
    | none =>
        cases hn : net' url' with
        | some v =>
            simp only [find_assoc]
            by_cases he : url' = u
            · rw [he] at hc; rw [hc] at hu; cases hu
            · simp [he, hu]
        | none => exact hu

/-- C7 witness: after a first fetch of `"u"` populates the cache, the second
call is a hit with identical content, no fetch, and an unchanged cache. -/
theorem C7_cache_idempotent_witness :
    get_url (fun _ => none) [("u", "c")] "u" = (.ok "c", [("u", "c")], false) :=
  (C7_cache_idempotent (fun _ => some "c") (fun _ => none) [] "u" "c"
    [("u", "c")] true rfl).1

/-! ## Content-addressed resource filenames (C9) -/

/-- C9 counterexample: with a hash stand-in `h` mapping `"c"` to `"hc"`, the
filename produced for a resource of content `"c"` and extension `"css"` is
`".csshc.css"` — the hash is embedded between a leading dot-extension and a
trailing dot-extension, not merely concatenated with the extension. -/
theorem C9_counterexample :
    (res_filename (fun s => "h" ++ s) (fun _ => some "c") [] "u" "css").1 =
      .ok ".csshc.css" ∧
    (".csshc.css" : String) ≠ "hc" ++ ".css" ∧
    (".csshc.css" : String) ≠ "hc" ++ "css" := by
  refine ⟨rfl, by decide, by decide⟩

/-- C9 amended: the local-mode filename is
`"." ++ ext ++ md5hex(content) ++ "." ++ ext` — derived from the hash of the
fetched content (never from the URL) and the extension; two resources with
identical content and extension therefore receive identical filenames
regardless of their URLs, caches, or networks. -/
theorem C9_content_addressed (md5hex : String → String)
    (net net' : String → Option String) (cache cache' : Cache)
    (url url' ext content : String)
    (h : (get_url net cache url).1 = .ok content)
    (h' : (get_url net' cache' url').1 = .ok content) :
    (res_filename md5hex net cache url ext).1 =
      .ok ("." ++ ext ++ md5hex content ++ "." ++ ext) ∧
    (res_filename md5hex net cache url ext).1 =
      (res_filename md5hex net' cache' url' ext).1 := by
  unfold res_filename
  rcases hg : get_url net cache url with ⟨r, c1, f⟩
  rcases hg' : get_url net' cache' url' with ⟨r', c1', f'⟩
  rw [hg] at h; rw [hg'] at h'
  simp only at h h'
  subst h; subst h'
  exact ⟨rfl, rfl⟩

/-- C9 witness: two different URLs with the same fetched content get the
same filename under a concrete hash stand-in. -/
theorem C9_content_addressed_witness :
    (res_filename (fun s => "h" ++ s) (fun _ => some "c") [] "u1" "css").1 =
      .ok ".csshc.css" ∧
    (res_filename (fun s => "h" ++ s) (fun _ => some "c") [] "u1" "css").1 =
      (res_filename (fun s => "h" ++ s) (fun _ => some "c") [] "u2" "css").1 :=
  C9_content_addressed (fun s => "h" ++ s) (fun _ => some "c")
    (fun _ => some "c") [] [] "u1" "u2" "css" "c" rfl rfl

/-! ## Default path handling (C8) -/

/-- C8 counterexample: `set_path` does not run to completion — its logging
line applies the `%` operator to a format string with no conversion
specifier, raising `TypeError` before any assignment; so the claim's
description of a completed call that binds a function-local variable fails
on the code. -/
theorem C8_counterexample :
    (set_path none "/tmp").2 =
      .error (.typeError "not all arguments converted during string formatting") ∧
    (set_path none "/tmp").2 ≠ .ok () :=
  ⟨rfl, by decide⟩

/-- C8 amended: `set_path` never mutates the module-level default — the call
raises `TypeError` from its malformed logging format expression before
reaching the assignment, which would in any case only have bound a
function-local name for want of a `global` declaration; `get_path` observed
after a (caught) `set_path` call equals `get_path` observed without it, for
every path, environment, and home directory. -/
theorem C8_set_path_no_effect (PATH : Option String) (p : String)
    (envvar : Option String) (home : String) :
    (set_path PATH p).1 = PATH ∧
    get_path (set_path PATH p).1 envvar home = get_path PATH envvar home ∧
    (set_path PATH p).2 =
      .error (.typeError "not all arguments converted during string formatting") :=
  ⟨rfl, rfl, rfl⟩

/-! ## Filename and timestamp theorems (C10) -/

/-- Printing digits with `Nat.digitChar` is strictly monotone on single digits. -/
theorem digit_char_lt :
    ∀ a, a < 10 → ∀ b, b < 10 → a < b → Nat.digitChar a < Nat.digitChar b := by
  decide

/-- Prepending a common prefix preserves strict lexicographic order. -/
theorem lex_append_pre (u x y : List Char)
    (h : List.Lex (· < ·) x y) : List.Lex (· < ·) (u ++ x) (u ++ y) := by
  induction u with
  | nil => exact h
  | cons c u ih => exact List.Lex.cons ih

/-- Lexicographic order of two equal-length blocks decides the order of any
extensions of them. -/
theorem lex_append_first (u v : List Char) (h : List.Lex (· < ·) u v) :
    u.length = v.length → ∀ x y, List.Lex (· < ·) (u ++ x) (v ++ y) := by
  induction h with
  | nil => intro hl; simp at hl
  | cons h ih => intro hl x y; exact List.Lex.cons (ih (by simpa using hl) x y)
  | rel h => intro _ x y; exact List.Lex.rel h

/-- Fixed-width printing `digitsBE k n` always yields exactly `k` characters. -/
theorem digitsBE_length (k n : Nat) : (digitsBE k n).length = k := by
  induction k generalizing n with
  | zero => rfl
  | succ k ih => simp [digitsBE, ih]

/-- Zero-padded fixed-width decimal printing is strictly monotone. -/
theorem digitsBE_lt : ∀ (k a b : Nat), a < b → b < 10 ^ k →
    List.Lex (· < ·) (digitsBE k a) (digitsBE k b) := by
  intro k
  induction k with
  | zero => intro a b hab hb; simp at hb; omega
  | succ k ih =>
      intro a b hab hb
      have hp : 0 < 10 ^ k := Nat.pos_pow_of_pos k (by norm_num)
      have hpow : 10 ^ (k + 1) = 10 ^ k * 10 := pow_succ 10 k
      have hbq : b / 10 ^ k < 10 := by
        rw [Nat.div_lt_iff_lt_mul hp]; omega
      have haq : a / 10 ^ k < 10 := by
        rw [Nat.div_lt_iff_lt_mul hp]; omega
      have hdm_a := Nat.div_add_mod a (10 ^ k)
      have hdm_b := Nat.div_add_mod b (10 ^ k)
      rcases Nat.lt_trichotomy (a / 10 ^ k) (b / 10 ^ k) with hq | hq | hq
      · exact List.Lex.rel (digit_char_lt _ haq _ hbq hq)
      · have hm : a % 10 ^ k < b % 10 ^ k := by
          rw [hq] at hdm_a
          omega
        simp only [digitsBE, hq]
        exact List.Lex.cons (ih _ _ hm (Nat.mod_lt b hp))
      · exfalso
        have : a / 10 ^ k ≤ b / 10 ^ k := Nat.div_le_div_right (Nat.le_of_lt hab)
        omega

/-- Every character surviving the strip step was in the original list. -/
theorem mem_of_mem_strip (l : List Char) (c : Char)
    (hc : c ∈ ((l.dropWhile is_space_char).reverse.dropWhile is_space_char).reverse) :
    c ∈ l := by
  rw [List.mem_reverse] at hc
  have h1 := (List.dropWhile_sublist is_space_char
    (l := (l.dropWhile is_space_char).reverse)).subset hc
  rw [List.mem_reverse] at h1
  exact (List.dropWhile_sublist is_space_char (l := l)).subset h1

/-- The character-class removal is a no-op on an already-removed-and-stripped
string, so the strip step commutes into the claim's two-stage pipeline. -/
theorem re1_strip_fix (t : String) :
    re1_sub (py_strip (re1_sub t)) = py_strip (re1_sub t) := by
  unfold re1_sub py_strip
  show String.mk _ = String.mk _
  congr 1
  apply List.filter_eq_self.mpr
  intro c hc
  have hc' : c ∈ List.filter
      (fun c => is_word_char c || is_space_char c || c == '-') t.data :=
    mem_of_mem_strip
      (List.filter (fun c => is_word_char c || is_space_char c || c == '-') t.data)
      c hc
  exact List.of_mem_filter
    (p := fun c => is_word_char c || is_space_char c || c == '-') hc'

/-- C10 counterexample: for the title `"hi !"` the code strips the
whitespace exposed at the end by punctuation removal and produces
`"hi.html"`, while the claim's slug pipeline (removal then collapse, with no
strip) produces `"hi_.html"`. -/
theorem C10_counterexample :
    default_filename "hi !" = "hi.html" ∧
    claim_filename "hi !" = "hi_.html" ∧
    default_filename "hi !" ≠ claim_filename "hi !" := by
  refine ⟨by decide, by decide, by decide⟩

/-- C10 amended: the default filename is the slugified title plus `.html`,
where slug = removal of all non-word/non-space/non-hyphen characters, then
strip of leading and trailing whitespace, then collapse of the remaining
whitespace runs to single underscores, preserving letter case; the title
`"My Report! (v2)"` yields `"My_Report_v2.html"`; and the default prefix is
the sortable timestamp `YYYY_MM_DD-HH_MM_SS-`, strictly monotone in the
time for in-range fields. -/
theorem C10_filename_convention :
    (∀ title, default_filename title = claim_filename (py_strip (re1_sub title))) ∧
    default_filename "My Report! (v2)" = "My_Report_v2.html" ∧
    (∀ a b : Tm, tm_valid a → tm_valid b → tm_lt a b →
      strftime_pfx a < strftime_pfx b) := by
  refine ⟨fun title => ?_, by decide, fun a b ha hb h => ?_⟩
  · unfold default_filename claim_filename
    rw [re1_strip_fix]
  · rw [String.lt_iff_toList_lt]
    show List.Lex (· < ·) _ _
    obtain ⟨ha1, ha2, ha3, ha4, ha5, ha6⟩ := ha
    obtain ⟨hb1, hb2, hb3, hb4, hb5, hb6⟩ := hb
    simp only [strftime_pfx, String.toList, List.append_assoc, List.singleton_append]
    rcases h with h | ⟨e1, h⟩
    · exact lex_append_first _ _ (digitsBE_lt 4 _ _ h hb1)
        (by simp [digitsBE_length]) _ _
    rw [e1]
    apply lex_append_pre
    apply List.Lex.cons
    rcases h with h | ⟨e2, h⟩
    · exact lex_append_first _ _ (digitsBE_lt 2 _ _ h hb2)
        (by simp [digitsBE_length]) _ _
    rw [e2]
    apply lex_append_pre
    apply List.Lex.cons
    rcases h with h | ⟨e3, h⟩
    · exact lex_append_first _ _ (digitsBE_lt 2 _ _ h hb3)
        (by simp [digitsBE_length]) _ _
    rw [e3]
    apply lex_append_pre
    apply List.Lex.cons
    rcases h with h | ⟨e4, h⟩
    · exact lex_append_first _ _ (digitsBE_lt 2 _ _ h hb4)
        (by simp [digitsBE_length]) _ _
    rw [e4]
    apply lex_append_pre
    apply List.Lex.cons
    rcases h with h | ⟨e5, h⟩
    · exact lex_append_first _ _ (digitsBE_lt 2 _ _ h hb5)
        (by simp [digitsBE_length]) _ _
    rw [e5]
    apply lex_append_pre
    apply List.Lex.cons
    exact lex_append_first _ _ (digitsBE_lt 2 _ _ h hb6)
      (by simp [digitsBE_length]) _ _

/-- C10 witness: the amended statement applied to a concrete title and to
two concrete timestamps one second apart. -/
theorem C10_filename_convention_witness :
    default_filename "x" = claim_filename (py_strip (re1_sub "x")) ∧
    strftime_pfx ⟨2020, 1, 2, 3, 4, 5⟩ < strftime_pfx ⟨2020, 1, 2, 3, 4, 6⟩ :=
  ⟨C10_filename_convention.1 "x",
    C10_filename_convention.2.2 ⟨2020, 1, 2, 3, 4, 5⟩ ⟨2020, 1, 2, 3, 4, 6⟩
      (by simp [tm_valid]) (by simp [tm_valid]) (by simp [tm_lt])⟩

theorem length_string_literals :
    (row_open.length = 17) ∧ (row_close.length = 6) := ⟨rfl, rfl⟩

theorem col_piece_length (k : Nat) (s : String) :
    (col_piece k s).length = 27 + (toString (12 / k)).length + s.length := by
  simp [col_piece, String.length_append]
  have h1 : ("<div class=\x27col-md-" : String).length = 19 := rfl
  have h2 : ("\x27>" : String).length = 2 := rfl
  have h3 : ("</div>" : String).length = 6 := rfl
  omega

theorem col_piece_ne_row_open (k : Nat) (s : String) : col_piece k s ≠ row_open := by
  intro h
  have := congrArg String.length h
  rw [col_piece_length] at this
  have : row_open.length = 17 := rfl
  omega


theorem col_piece_ne_row_close (k : Nat) (s : String) : col_piece k s ≠ row_close := by
  intro h
  have h1 := congrArg String.length h
  rw [col_piece_length] at h1
  have h2 : row_close.length = 6 := rfl
  omega

theorem count_col_open (k : Nat) (s : String) :
    List.count row_open [col_piece k s] = 0 := by
  simp [List.count_singleton', col_piece_ne_row_open]

theorem count_col_close (k : Nat) (s : String) :
    List.count row_close [col_piece k s] = 0 := by
  simp [List.count_singleton', col_piece_ne_row_close]

theorem count_ro_ro : List.count row_open [row_open] = 1 := by decide
theorem count_rc_ro : List.count row_close [row_open] = 0 := by decide
theorem count_ro_rc : List.count row_open [row_close] = 0 := by decide
theorem count_rc_rc : List.count row_close [row_close] = 1 := by decide

theorem grid_balance_aux (k : Nat) (hk : 0 < k) :
    ∀ (rs : List String) (i n : Nat), i + rs.length = n → rs ≠ [] →
    ((grid_pieces k n rs i).count row_close : Int) -
      (grid_pieces k n rs i).count row_open = if i % k = 0 then 0 else 1 := by
  intro rs
  induction rs with
  | nil => intro i n _ h; exact absurd rfl h
  | cons s rest ih =>
      intro i n hn _
      rcases eq_or_ne rest [] with rfl | hrest
      · have hlast : i + 1 = n := by simpa using hn
        have c2 : ((i + 1) % k == 0 || i + 1 == n) = true := by simp [hlast]
        by_cases hi : i % k = 0
        · have c1 : (i % k == 0) = true := by simp [hi]
          simp only [grid_pieces, c1, c2, if_true, List.count_append,
            List.count_nil, count_ro_ro, count_rc_ro, count_ro_rc, count_rc_rc,
            count_col_open, count_col_close]
          simp [hi]
        · have c1 : (i % k == 0) = false := by simp [hi]
          simp only [grid_pieces, c1, c2, if_true, Bool.false_eq_true,
            if_false, List.count_append, List.count_nil, count_ro_ro,
            count_rc_ro, count_ro_rc, count_rc_rc, count_col_open,
            count_col_close]
          simp [hi]
      · have hn' : i + 1 + rest.length = n := by
          simp only [List.length_cons] at hn; omega
        have hne : (i + 1 = n) = False := by
          simp only [eq_iff_iff, iff_false]
          have : 0 < rest.length := List.length_pos.mpr hrest
          omega
        have ihh := ih (i + 1) n hn' hrest
        by_cases hi : i % k = 0
        · have c1 : (i % k == 0) = true := by simp [hi]
          rcases eq_or_ne k 1 with rfl | hk1
          · have h1 : (i + 1) % 1 = 0 := Nat.mod_one _
            rw [h1, if_pos rfl] at ihh
            have c2 : ((i + 1) % 1 == 0 || i + 1 == n) = true := by simp [h1]
            simp only [grid_pieces, c1, c2, if_true, List.count_append,
              List.count_nil, count_ro_ro, count_rc_ro, count_ro_rc,
              count_rc_rc, count_col_open, count_col_close]
            simp [hi]
            omega
          · have hkgt : 1 < k := by omega
            have h1 : (i + 1) % k = 1 := by
              have hmod := Nat.add_mod i 1 k
              rw [hi] at hmod
              simpa [Nat.mod_eq_of_lt hkgt] using hmod
            rw [h1, if_neg (by omega : ¬(1 : Nat) = 0)] at ihh
            have c2 : ((i + 1) % k == 0 || i + 1 == n) = false := by
              simp [h1, hne]
            simp only [grid_pieces, c1, c2, if_true, Bool.false_eq_true,
              if_false, List.count_append, List.count_nil, count_ro_ro,
              count_rc_ro, count_ro_rc, count_rc_rc, count_col_open,
              count_col_close]
            simp [hi]
            omega
        · have c1 : (i % k == 0) = false := by simp [hi]
          by_cases hc : (i + 1) % k = 0
          · rw [hc, if_pos rfl] at ihh
            have c2 : ((i + 1) % k == 0 || i + 1 == n) = true := by simp [hc]
            simp only [grid_pieces, c1, c2, if_true, Bool.false_eq_true,
              if_false, List.count_append, List.count_nil, count_ro_ro,
              count_rc_ro, count_ro_rc, count_rc_rc, count_col_open,
              count_col_close]
            simp [hi]
            omega
          · rw [if_neg hc] at ihh
            have c2 : ((i + 1) % k == 0 || i + 1 == n) = false := by
              simp [hc, hne]
            simp only [grid_pieces, c1, c2, Bool.false_eq_true, if_false,
              List.count_append, List.count_nil, count_ro_ro, count_rc_ro,
              count_ro_rc, count_rc_rc, count_col_open, count_col_close]
            simp [hi]
            omega

theorem grid_balance (k : Nat) (hk : 0 < k) (rs : List String) :
    (grid_pieces k rs.length rs 0).count row_open =
      (grid_pieces k rs.length rs 0).count row_close := by
  rcases eq_or_ne rs [] with rfl | h
  · rfl
  · have hb := grid_balance_aux k hk rs 0 rs.length (by omega) h
    rw [if_pos (Nat.zero_mod k)] at hb
    omega

theorem grid_pieces_eq_enum (k n : Nat) :
    ∀ (rs : List String) (i : Nat),
      grid_pieces k n rs i = (rs.enumFrom i).flatMap (fun p =>
        (if p.1 % k == 0 then [row_open] else []) ++ [col_piece k p.2] ++
        (if (p.1 + 1) % k == 0 || p.1 + 1 == n then [row_close] else [])) := by
  intro rs
  induction rs with
  | nil => intro i; rfl
  | cons s rest ih =>
      intro i
      rw [grid_pieces, List.enumFrom_cons, List.flatMap_cons, ih (i + 1)]

theorem grid_pieces_eq_spec (k : Nat) (rs : List String) :
    grid_pieces k rs.length rs 0 = grid_spec k rs :=
  grid_pieces_eq_enum k rs.length rs 0

theorem except_map_error {α β : Type} (f : α → β) (e : Err) :
    Except.map f (Except.error e : Except Err α) = .error e := rfl

theorem except_map_ok {α β : Type} (f : α → β) (a : α) :
    Except.map f (Except.ok a : Except Err α) = .ok (f a) := rfl

theorem render_grid_eq (env : Env) (k n level : Nat) :
    ∀ (cs : List RObj) (i : Nat),
      render_grid env k n cs i level =
        (render_list env cs level).map (fun rs => grid_pieces k n rs i) := by
  intro cs
  induction cs with
  | nil => intro i; rfl
  | cons c rest ih =>
      intro i
      rw [render_grid]
      cases hr : render env c level with
      | error e => simp [render_list, hr, except_map_error]
      | ok s =>
          rw [ih (i + 1)]
          cases hrest : render_list env rest level with
          | error e => simp [render_list, hr, hrest, except_map_error]
          | ok rs =>
              simp [render_list, hr, hrest, except_map_error, except_map_ok,
                grid_pieces]

theorem render_list_length (env : Env) (level : Nat) :
    ∀ (cs : List RObj) (rs : List String),
      render_list env cs level = .ok rs → rs.length = cs.length := by
  intro cs
  induction cs with
  | nil =>
      intro rs h
      simp only [render_list, Except.ok.injEq] at h
      simp [← h]
  | cons c rest ih =>
      intro rs h
      rw [render_list] at h
      cases hr : render env c level with
      | error e => rw [hr] at h; simp at h
      | ok s =>
          rw [hr] at h
          cases hrest : render_list env rest level with
          | error e => rw [hrest] at h; simp at h
          | ok rs2 =>
              rw [hrest] at h
              simp only [Except.ok.injEq] at h
              have hlen := ih rs2 hrest
              simp [← h, hlen]

theorem C4_grid_layout (env : Env) (k : Nat)
    (hk : k ∈ ([1, 2, 3, 4, 6, 12] : List Nat))
    (cs : List RObj) (level : Nat) (rs : List String)
    (h : render_list env cs level = .ok rs) :
    render env (.grid k cs) level = .ok (String.join (grid_spec k rs)) ∧
    (grid_spec k rs).count row_open = (grid_spec k rs).count row_close ∧
    (cs = [] → render env (.grid k cs) level = .ok "") := by
  have hk0 : 0 < k := by
    simp only [List.mem_cons, List.not_mem_nil, or_false] at hk
    rcases hk with rfl | rfl | rfl | rfl | rfl | rfl <;> norm_num
  have hlen : rs.length = cs.length := render_list_length env level cs rs h
  have hgrid : render env (.grid k cs) level =
      match render_grid env k cs.length cs 0 level with
      | .error e => .error e
      | .ok pieces => .ok (String.join pieces) := rfl
  refine ⟨?_, ?_, ?_⟩
  · rw [hgrid, render_grid_eq, h, except_map_ok, ← hlen, grid_pieces_eq_spec]
  · rw [← grid_pieces_eq_spec]
    exact grid_balance k hk0 rs
  · rintro rfl
    rfl

theorem C4_grid_layout_witness :
    render ⟨false, false, false, false⟩
      (.grid 2 [.string "a", .string "b", .string "c"]) 0 =
      .ok (String.join (grid_spec 2 ["a", "b", "c"])) ∧
    (grid_spec 2 ["a", "b", "c"]).count row_open =
      (grid_spec 2 ["a", "b", "c"]).count row_close :=
  ⟨(C4_grid_layout ⟨false, false, false, false⟩ 2 (by decide)
      [.string "a", .string "b", .string "c"] 0 ["a", "b", "c"] rfl).1,
   (C4_grid_layout ⟨false, false, false, false⟩ 2 (by decide)
      [.string "a", .string "b", .string "c"] 0 ["a", "b", "c"] rfl).2.1⟩

theorem get_url_err (net : String → Option String) (cache : Cache)
    (url : String) (e : Err) (h : (get_url net cache url).1 = .error e) :
    e = .resourceFetch url := by
  unfold get_url at h
  cases hc : find_assoc cache url with
  | some c => rw [hc] at h; simp at h
  | none =>
      rw [hc] at h
      cases hn : net url with
      | some c => rw [hn] at h; simp at h
      | none => rw [hn] at h; simp at h; exact h.symm

theorem res_filename_err (md5hex : String → String)
    (net : String → Option String) (cache : Cache) (url ext : String) (e : Err)
    (h : (res_filename md5hex net cache url ext).1 = .error e) :
    e = .resourceFetch url := by
  unfold res_filename at h
  rcases hg : get_url net cache url with ⟨r, c1, f1⟩
  rw [hg] at h
  cases r with
  | error e2 =>
      simp at h
      subst h
      exact get_url_err net cache url e2 (by rw [hg])
  | ok content => simp at h

theorem res_filename_ok_shape (md5hex : String → String)
    (net : String → Option String) (cache : Cache) (url ext fname : String)
    (c2 : Cache) (h : res_filename md5hex net cache url ext = (.ok fname, c2)) :
    ∃ content, fname = "." ++ ext ++ md5hex content ++ "." ++ ext := by
  unfold res_filename at h
  rcases hg : get_url net cache url with ⟨r, c1, f1⟩
  rw [hg] at h
  cases r with
  | error e2 => simp at h
  | ok content =>
      simp only [Prod.mk.injEq, Except.ok.injEq] at h
      exact ⟨content, h.1.symm⟩

theorem save_single_err (md5hex : String → String)
    (net : String → Option String) (cache : Cache) (fs : FS)
    (folder url ext : String) (e : Err)
    (h : (save_single md5hex net cache fs folder url ext).1 = .error e) :
    e = .resourceFetch url := by
  unfold save_single at h
  split at h
  · rename_i e2 c1 heq
    simp at h
    subst h
    exact res_filename_err md5hex net cache url ext e2 (by rw [heq])
  · rename_i fname c1 heq
    split at h
    · rename_i e2 c2 f2 heq2
      simp at h
      subst h
      exact get_url_err net c1 url e2 (by rw [heq2])
    · rename_i content c2 f2 heq2
      simp at h

theorem save_seq_err (md5hex : String → String)
    (net : String → Option String) (ext : String) :
    ∀ (urls : List String) (cache : Cache) (fs : FS) (folder : String) (e : Err),
      (save_seq md5hex net ext urls cache fs folder).1 = .error e →
      ∃ u, e = .resourceFetch u := by
  intro urls
  induction urls with
  | nil => intro cache fs folder e h; simp [save_seq] at h
  | cons u rest ih =>
      intro cache fs folder e h
      rw [save_seq] at h
      rcases hs : save_single md5hex net cache fs folder u ext with ⟨r, fs1, c1⟩
      rw [hs] at h
      cases r with
      | error e2 =>
          simp at h
          subst h
          exact ⟨u, save_single_err md5hex net cache fs folder u ext e2 (by rw [hs])⟩
      | ok _ => exact ih c1 fs1 folder e h

theorem save_res_err (md5hex : String → String)
    (net : String → Option String) (cache : Cache) (fs : FS) (folder : String)
    (e : Err) (h : (save_res md5hex net cache fs folder).1 = .error e) :
    ∃ u, e = .resourceFetch u := by
  unfold save_res at h
  rcases h1 : save_seq md5hex net "css" CSS cache fs folder with ⟨r, fs1, c1⟩
  rw [h1] at h
  cases r with
  | error e2 =>
      simp at h
      subst h
      exact save_seq_err md5hex net "css" CSS cache fs folder e2 (by rw [h1])
  | ok _ => exact save_seq_err md5hex net "js" JS c1 fs1 folder e h

mutual

theorem render_err (env : Env) (o : RObj) (level : Nat) (e : Err)
    (h : render env o level = .error e) : ∃ m, e = .plottingUnavailable m := by
  cases o with
  | string t => simp [render] at h
  | p c =>
      rw [render] at h
      split at h
      · rename_i e2 heq
        cases h
        exact render_err env c level _ heq
      · simp at h
  | dict entries => simp [render] at h
  | heading t cs =>
      rw [render] at h
      split at h
      · rename_i e2 heq
        cases h
        exact render_children_err env cs (level + 1) _ heq
      · simp at h
  | grid k cs =>
      rw [render] at h
      split at h
      · rename_i e2 heq
        cases h
        exact render_grid_err env k cs.length cs 0 level _ heq
      · simp at h
  | array html strForm => simp [render] at h
  | dframe html strForm => simp [render] at h
  | plot d =>
      rw [render] at h
      split at h
      · simp at h
      · cases h
        exact ⟨_, rfl⟩
  | mplot d =>
      rw [render] at h
      split at h
      · simp at h
      · cases h
        exact ⟨_, rfl⟩

theorem render_children_err (env : Env) (cs : List RObj) (level : Nat) (e : Err)
    (h : render_children env cs level = .error e) :
    ∃ m, e = .plottingUnavailable m := by
  cases cs with
  | nil => simp [render_children] at h
  | cons c rest =>
      rw [render_children] at h
      split at h
      · rename_i e2 heq
        cases h
        exact render_err env c level _ heq
      · rename_i s heq
        split at h
        · rename_i e2 heq2
          cases h
          exact render_children_err env rest level _ heq2
        · simp at h

theorem render_grid_err (env : Env) (k n : Nat) (cs : List RObj)
    (i level : Nat) (e : Err)
    (h : render_grid env k n cs i level = .error e) :
    ∃ m, e = .plottingUnavailable m := by
  cases cs with
  | nil => simp [render_grid] at h
  | cons c rest =>
      rw [render_grid] at h
      split at h
      · rename_i e2 heq
        cases h
        exact render_err env c level _ heq
      · rename_i s heq
        split at h
        · rename_i e2 heq2
          cases h
          exact render_grid_err env k n rest (i + 1) level _ heq2
        · simp at h

end

theorem header_local_piece_err (md5hex : String → String)
    (net : String → Option String) (locl : Bool) (ext : String)
    (refTag : String → String) (c : String) (cache : Cache) (e : Err)
    (h : (header_local_piece md5hex net locl ext refTag c cache).1 = .error e) :
    e = .resourceFetch c := by
  unfold header_local_piece at h
  split at h
  · split at h
    · simp at h
    · rename_i e2 c2 hrf
      cases h
      exact res_filename_err md5hex net cache c ext _ (by rw [hrf])
  · simp at h

theorem header_inline_piece_err (net : String → Option String)
    (integrated : Bool) (inlineTag : String → String) (c : String)
    (cache : Cache) (e : Err)
    (h : (header_inline_piece net integrated inlineTag c cache).1 = .error e) :
    e = .resourceFetch c := by
  unfold header_inline_piece at h
  split at h
  · split at h
    · simp at h
    · rename_i e2 c2 f2 hgu
      cases h
      exact get_url_err net cache c _ (by rw [hgu])
  · simp at h

theorem header_loop_err (md5hex : String → String)
    (net : String → Option String) (locl web integrated : Bool) (ext : String)
    (refTag inlineTag : String → String) :
    ∀ (urls : List String) (cache : Cache) (e : Err),
      (header_loop md5hex net locl web integrated ext refTag inlineTag
        urls cache).1 = .error e →
      ∃ u, e = .resourceFetch u := by
  intro urls
  induction urls with
  | nil => intro cache e h; simp [header_loop] at h
  | cons c rest ih =>
      intro cache e h
      rw [header_loop] at h
      split at h
      · rename_i e2 c2 hs1
        cases h
        exact ⟨c, header_local_piece_err md5hex net locl ext refTag c cache _
          (by rw [hs1])⟩
      · rename_i s1 c2 hs1
        split at h
        · rename_i e2 c3 hs3
          cases h
          exact ⟨c, header_inline_piece_err net integrated inlineTag c c2 _
            (by rw [hs3])⟩
        · rename_i s3 c3 hs3
          split at h
          · rename_i e4 c4 hrec
            cases h
            exact ih c3 _ (by rw [hrec])
          · simp at h

theorem make_header_err (md5hex : String → String)
    (net : String → Option String) (web locl integrated : Bool)
    (cache : Cache) (e : Err)
    (h : (make_header md5hex net web locl integrated cache).1 = .error e) :
    ∃ u, e = .resourceFetch u := by
  unfold make_header at h
  split at h
  · rename_i e2 c2 h1
    cases h
    exact header_loop_err md5hex net locl web integrated "css" css_tag
      css_inline_tag CSS cache _ (by rw [h1])
  · rename_i s1 c2 h1
    split at h
    · rename_i e2 c3 h2
      cases h
      exact header_loop_err md5hex net locl web integrated "js" js_tag
        js_inline_tag JS c2 _ (by rw [h2])
    · simp at h

theorem report_render_err (env : Env) (md5hex : String → String)
    (net : String → Option String) (cache : Cache)
    (integrated web locl : Bool) (title : String) (children : List RObj)
    (time_c : String) (e : Err)
    (h : (report_render env md5hex net cache integrated web locl title
      children time_c).1 = .error e) :
    (∃ m, e = .plottingUnavailable m) ∨ (∃ u, e = .resourceFetch u) := by
  unfold report_render at h
  split at h
  · rename_i e2 hrc
    cases h
    exact .inl (render_children_err env children 1 _ hrc)
  · rename_i content hrc
    split at h
    · rename_i e2 c2 hmh
      cases h
      exact .inr (make_header_err md5hex net web locl integrated cache _
        (by rw [hmh]))
    · simp at h

theorem mk_dirs_mem (fs : FS) (folder : String) :
    folder ∈ (mk_dirs fs folder).dirs := by
  unfold mk_dirs
  split
  · assumption
  · exact List.mem_cons_self _ _

theorem save_single_files (md5hex : String → String)
    (net : String → Option String) (cache : Cache) (fs : FS)
    (folder url ext : String) (p : String)
    (hp : ∀ s, p ≠ path_join folder ("." ++ ext ++ s ++ "." ++ ext)) :
    find_assoc (save_single md5hex net cache fs folder url ext).2.1.files p =
      find_assoc fs.files p := by
  unfold save_single
  split
  · rfl
  · rename_i fname c1 heq
    split
    · rfl
    · rename_i content c2 f2 hg
      obtain ⟨content0, hshape⟩ :=
        res_filename_ok_shape md5hex net cache url ext fname c1 heq
      simp only [fs_write, find_assoc]
      rw [if_neg]
      intro hq
      exact hp (md5hex content0) (by rw [← hq, hshape])

theorem save_seq_files (md5hex : String → String)
    (net : String → Option String) (ext : String) :
    ∀ (urls : List String) (cache : Cache) (fs : FS) (folder p : String),
      (∀ s, p ≠ path_join folder ("." ++ ext ++ s ++ "." ++ ext)) →
      find_assoc (save_seq md5hex net ext urls cache fs folder).2.1.files p =
        find_assoc fs.files p := by
  intro urls
  induction urls with
  | nil => intro cache fs folder p hp; rfl
  | cons u rest ih =>
      intro cache fs folder p hp
      rw [save_seq]
      rcases hs : save_single md5hex net cache fs folder u ext with ⟨r, fs1, c1⟩
      have hframe := save_single_files md5hex net cache fs folder u ext p hp
      rw [hs] at hframe
      cases r with
      | error e => exact hframe
      | ok _ =>
          rw [ih c1 fs1 folder p hp]
          exact hframe

theorem save_res_files (md5hex : String → String)
    (net : String → Option String) (cache : Cache) (fs : FS)
    (folder p : String)
    (hp : ∀ ext s, p ≠ path_join folder ("." ++ ext ++ s ++ "." ++ ext)) :
    find_assoc (save_res md5hex net cache fs folder).2.1.files p =
      find_assoc fs.files p := by
  unfold save_res
  rcases h1 : save_seq md5hex net "css" CSS cache fs folder with ⟨r, fs1, c1⟩
  have hf1 := save_seq_files md5hex net "css" CSS cache fs folder p (hp "css")
  rw [h1] at hf1
  cases r with
  | error e => exact hf1
  | ok _ =>
      have hf2 := save_seq_files md5hex net "js" JS c1 fs1 folder p (hp "js")
      rw [hf2]
      exact hf1

theorem save_core_eq_res_error (env : Env) (md5hex : String → String)
    (net : String → Option String) (cache : Cache) (fs1 : FS)
    (folderR path : String) (integrated web' locl' : Bool) (title : String)
    (children : List RObj) (time_c : String) (e : Err) (fs2 : FS) (c2 : Cache)
    (h : (if locl' then save_res md5hex net cache fs1 folderR
          else (.ok (), fs1, cache)) = (.error e, fs2, c2)) :
    save_core env md5hex net cache fs1 folderR path integrated web' locl'
      title children time_c = ⟨.error e, fs2, c2⟩ := by
  unfold save_core
  rw [h]

theorem save_core_eq_render_error (env : Env) (md5hex : String → String)
    (net : String → Option String) (cache : Cache) (fs1 : FS)
    (folderR path : String) (integrated web' locl' : Bool) (title : String)
    (children : List RObj) (time_c : String) (fs2 : FS) (c2 : Cache)
    (e : Err) (c3 : Cache)
    (h : (if locl' then save_res md5hex net cache fs1 folderR
          else (.ok (), fs1, cache)) = (.ok (), fs2, c2))
    (hr : report_render env md5hex net c2 integrated web' locl' title
      children time_c = (.error e, c3)) :
    save_core env md5hex net cache fs1 folderR path integrated web' locl'
      title children time_c = ⟨.error e, fs_write fs2 path "", c3⟩ := by
  unfold save_core
  simp only [h, hr]

theorem save_core_eq_ok (env : Env) (md5hex : String → String)
    (net : String → Option String) (cache : Cache) (fs1 : FS)
    (folderR path : String) (integrated web' locl' : Bool) (title : String)
    (children : List RObj) (time_c : String) (fs2 : FS) (c2 : Cache)
    (doc : String) (c3 : Cache)
    (h : (if locl' then save_res md5hex net cache fs1 folderR
          else (.ok (), fs1, cache)) = (.ok (), fs2, c2))
    (hr : report_render env md5hex net c2 integrated web' locl' title
      children time_c = (.ok doc, c3)) :
    save_core env md5hex net cache fs1 folderR path integrated web' locl'
      title children time_c =
      ⟨.ok (), fs_write (fs_write fs2 path "") path doc, c3⟩ := by
  unfold save_core
  simp only [h, hr]

theorem save_core_no_invalid (env : Env) (md5hex : String → String)
    (net : String → Option String) (cache : Cache) (fs1 : FS)
    (folderR path : String) (integrated web' locl' : Bool) (title : String)
    (children : List RObj) (time_c : String) (m : String) :
    (save_core env md5hex net cache fs1 folderR path integrated web' locl'
      title children time_c).result ≠ .error (.invalidConfiguration m) := by
  unfold save_core
  split
  · rename_i e fs2 c2 hsr
    intro hc
    simp only [Except.error.injEq] at hc
    subst hc
    cases locl' with
    | true =>
        rw [if_pos rfl] at hsr
        obtain ⟨u, hu⟩ := save_res_err md5hex net cache fs1 folderR _
          (by rw [hsr])
        simp at hu
    | false => simp at hsr
  · rename_i val fs2 c2 hsr
    split
    · rename_i e c3 hrr
      intro hc
      simp only [Except.error.injEq] at hc
      subst hc
      rcases report_render_err env md5hex net c2 integrated web' locl' title
          children time_c _ (by rw [hrr]) with ⟨m2, hm⟩ | ⟨u, hm⟩ <;> simp at hm
    · simp

/-- C2 counterexample: a save invocation selecting both `integrated` and
`web` simultaneously does not fail — `integrated` silently overrides the
other flags and the save completes normally. -/
theorem C2_counterexample :
    (save ⟨false, false, false, false⟩ (fun s => s) (fun _ => some "X") []
      ⟨[], []⟩ none none "/home/u" ⟨2020, 1, 2, 3, 4, 5⟩ "now" "T" []
      (some "/f") (some "r.html") (some "") true true false).result =
      .ok () := by decide

/-- C2 amended: `Report.save` raises the invalid-configuration error exactly
when no output mode at all is selected (`integrated`, `web` and `local` all
false); selecting several modes is permitted (`integrated` overrides the
other two, and `web` with `local` produce both outputs); and the failing
check runs only after the output directory has been created. -/
theorem C2_mode_selection (env : Env) (md5hex : String → String)
    (net : String → Option String) (cache : Cache) (fs : FS)
    (PATH envvar : Option String) (home : String) (now : Tm) (time_c : String)
    (title : String) (children : List RObj)
    (folder filename pfx : Option String) (integrated web locl : Bool)
    (out : SaveOut)
    (hout : out = save env md5hex net cache fs PATH envvar home now time_c
      title children folder filename pfx integrated web locl) :
    ((∃ m, out.result = .error (.invalidConfiguration m)) ↔
      (integrated = false ∧ web = false ∧ locl = false)) ∧
    (integrated = false ∧ web = false ∧ locl = false →
      out.result = .error (.invalidConfiguration mode_error_msg) ∧
      folder.getD (get_path PATH envvar home) ∈ out.fs.dirs) := by
  subst hout
  cases integrated with
  | true =>
      constructor
      · constructor
        · rintro ⟨m, hm⟩
          simp only [save, Bool.or_true, Bool.true_or, if_true] at hm
          exact absurd hm (save_core_no_invalid env md5hex net cache _ _ _
            true false false title children time_c m)
        · rintro ⟨h1, -, -⟩
          simp at h1
      · rintro ⟨h1, -, -⟩
        simp at h1
  | false =>
      cases web with
      | true =>
          constructor
          · constructor
            · rintro ⟨m, hm⟩
              simp only [save, Bool.true_or, if_true] at hm
              exact absurd hm (save_core_no_invalid env md5hex net cache _ _ _
                false true (if false then false else locl) title children
                time_c m)
            · rintro ⟨-, h2, -⟩
              simp at h2
          · rintro ⟨-, h2, -⟩
            simp at h2
      | false =>
          cases locl with
          | true =>
              constructor
              · constructor
                · rintro ⟨m, hm⟩
                  simp only [save, Bool.or_true, if_true] at hm
                  exact absurd hm (save_core_no_invalid env md5hex net cache
                    _ _ _ false false true title children time_c m)
                · rintro ⟨-, -, h3⟩
                  simp at h3
              · rintro ⟨-, -, h3⟩
                simp at h3
          | false =>
              constructor
              · constructor
                · intro _
                  exact ⟨rfl, rfl, rfl⟩
                · intro _
                  exact ⟨mode_error_msg, by simp [save]⟩
              · intro _
                constructor
                · simp [save]
                · simp only [save]
                  exact mk_dirs_mem fs (folder.getD (get_path PATH envvar home))

/-- C2 witness: with no mode selected, the save fails with the
invalid-configuration error, and the output directory has nevertheless been
created. -/
theorem C2_mode_selection_witness :
    (save ⟨false, false, false, false⟩ (fun s => s) (fun _ => none) []
      ⟨[], []⟩ none none "/home/u" ⟨2020, 1, 2, 3, 4, 5⟩ "now" "T" []
      (some "/f") (some "r.html") (some "") false false false).result =
      .error (.invalidConfiguration mode_error_msg) ∧
    "/f" ∈ (save ⟨false, false, false, false⟩ (fun s => s) (fun _ => none) []
      ⟨[], []⟩ none none "/home/u" ⟨2020, 1, 2, 3, 4, 5⟩ "now" "T" []
      (some "/f") (some "r.html") (some "") false false false).fs.dirs := by
  have h := (C2_mode_selection ⟨false, false, false, false⟩ (fun s => s)
    (fun _ => none) [] ⟨[], []⟩ none none "/home/u" ⟨2020, 1, 2, 3, 4, 5⟩
    "now" "T" [] (some "/f") (some "r.html") (some "") false false false _
    rfl).2 ⟨rfl, rfl, rfl⟩
  exact ⟨h.1, h.2⟩

theorem mk_dirs_files (fs : FS) (folder : String) :
    (mk_dirs fs folder).files = fs.files := by
  unfold mk_dirs
  split <;> rfl

theorem save_eq_core (env : Env) (md5hex : String → String)
    (net : String → Option String) (cache : Cache) (fs : FS)
    (PATH envvar : Option String) (home : String) (now : Tm) (time_c : String)
    (title : String) (children : List RObj)
    (folder filename pfx : Option String) (integrated web locl : Bool)
    (hcond : ((if integrated then false else web) || integrated ||
      (if integrated then false else locl)) = true) :
    save env md5hex net cache fs PATH envvar home now time_c title children
      folder filename pfx integrated web locl =
    save_core env md5hex net cache
      (mk_dirs fs (folder.getD (get_path PATH envvar home)))
      (folder.getD (get_path PATH envvar home))
      (save_path PATH envvar home now title folder filename pfx)
      integrated (if integrated then false else web)
      (if integrated then false else locl) title children time_c := by
  simp only [save]
  rw [if_pos hcond]

theorem save_eq_mode_error (env : Env) (md5hex : String → String)
    (net : String → Option String) (cache : Cache) (fs : FS)
    (PATH envvar : Option String) (home : String) (now : Tm) (time_c : String)
    (title : String) (children : List RObj)
    (folder filename pfx : Option String) (integrated web locl : Bool)
    (hcond : ((if integrated then false else web) || integrated ||
      (if integrated then false else locl)) = false) :
    save env md5hex net cache fs PATH envvar home now time_c title children
      folder filename pfx integrated web locl =
    ⟨.error (.invalidConfiguration mode_error_msg),
      mk_dirs fs (folder.getD (get_path PATH envvar home)), cache⟩ := by
  simp only [save]
  rw [if_neg (by rw [hcond]; decide)]

/-- C1 amended: failures of the mode check or of local asset materialization
abort before the output file is created — the target path stays absent; but
a failure during rendering or header construction happens after
`open(path, "w")` has already created (or truncated) the output file, which
is left empty; when every step succeeds the fully rendered document is
written to the target path in a single complete-buffer write. -/
theorem C1_write_discipline (env : Env) (md5hex : String → String)
    (net : String → Option String) (cache : Cache) (fs : FS)
    (PATH envvar : Option String) (home : String) (now : Tm) (time_c : String)
    (title : String) (children : List RObj)
    (folder filename pfx : Option String) (integrated web locl : Bool)
    (out : SaveOut) (path folderR : String) (web' locl' : Bool)
    (hout : out = save env md5hex net cache fs PATH envvar home now time_c
      title children folder filename pfx integrated web locl)
    (hpath : path = save_path PATH envvar home now title folder filename pfx)
    (hfolder : folderR = folder.getD (get_path PATH envvar home))
    (hweb : web' = if integrated then false else web)
    (hlocl : locl' = if integrated then false else locl)
    (hfresh : find_assoc fs.files path = none)
    (hres : ∀ ext s, path ≠ path_join folderR ("." ++ ext ++ s ++ "." ++ ext)) :
    ((web' || integrated || locl') = false →
      out.result = .error (.invalidConfiguration mode_error_msg) ∧
      find_assoc out.fs.files path = none) ∧
    (∀ e fsx cax, (web' || integrated || locl') = true → locl' = true →
      save_res md5hex net cache (mk_dirs fs folderR) folderR =
        (.error e, fsx, cax) →
      out.result = .error e ∧ find_assoc out.fs.files path = none) ∧
    (∀ fs2 cache2 e cax, (web' || integrated || locl') = true →
      (if locl' then save_res md5hex net cache (mk_dirs fs folderR) folderR
        else (.ok (), mk_dirs fs folderR, cache)) = (.ok (), fs2, cache2) →
      report_render env md5hex net cache2 integrated web' locl' title
        children time_c = (.error e, cax) →
      out.result = .error e ∧ find_assoc out.fs.files path = some "") ∧
    (∀ fs2 cache2 doc cax, (web' || integrated || locl') = true →
      (if locl' then save_res md5hex net cache (mk_dirs fs folderR) folderR
        else (.ok (), mk_dirs fs folderR, cache)) = (.ok (), fs2, cache2) →
      report_render env md5hex net cache2 integrated web' locl' title
        children time_c = (.ok doc, cax) →
      out.result = .ok () ∧ find_assoc out.fs.files path = some doc) := by
  subst hout hpath hfolder hweb hlocl
  refine ⟨?_, ?_, ?_, ?_⟩
  · intro hcond
    rw [save_eq_mode_error env md5hex net cache fs PATH envvar home now
      time_c title children folder filename pfx integrated web locl hcond]
    refine ⟨rfl, ?_⟩
    show find_assoc (mk_dirs fs _).files _ = none
    rw [mk_dirs_files]
    exact hfresh
  · intro e fsx cax hcond hl hsr
    rw [save_eq_core env md5hex net cache fs PATH envvar home now time_c
      title children folder filename pfx integrated web locl hcond]
    have hif : (if (if integrated then false else locl) then
        save_res md5hex net cache
          (mk_dirs fs (folder.getD (get_path PATH envvar home)))
          (folder.getD (get_path PATH envvar home))
        else (.ok (), mk_dirs fs (folder.getD (get_path PATH envvar home)),
          cache)) = (.error e, fsx, cax) := by
      rw [hl, if_pos rfl]
      exact hsr
    rw [save_core_eq_res_error env md5hex net cache _ _ _ integrated _ _
      title children time_c e fsx cax hif]
    refine ⟨rfl, ?_⟩
    have hframe := save_res_files md5hex net cache
      (mk_dirs fs (folder.getD (get_path PATH envvar home)))
      (folder.getD (get_path PATH envvar home))
      (save_path PATH envvar home now title folder filename pfx) hres
    rw [hsr] at hframe
    show find_assoc fsx.files _ = none
    rw [hframe, mk_dirs_files]
    exact hfresh
  · intro fs2 cache2 e cax hcond hif hrr
    rw [save_eq_core env md5hex net cache fs PATH envvar home now time_c
      title children folder filename pfx integrated web locl hcond]
    rw [save_core_eq_render_error env md5hex net cache _ _ _ integrated _ _
      title children time_c fs2 cache2 e cax hif hrr]
    exact ⟨rfl, by simp [fs_write, find_assoc]⟩
  · intro fs2 cache2 doc cax hcond hif hrr
    rw [save_eq_core env md5hex net cache fs PATH envvar home now time_c
      title children folder filename pfx integrated web locl hcond]
    rw [save_core_eq_ok env md5hex net cache _ _ _ integrated _ _
      title children time_c fs2 cache2 doc cax hif hrr]
    exact ⟨rfl, by simp [fs_write, find_assoc]⟩

/-- C1 counterexample: with plotly unavailable, saving a report containing a
plot node fails during rendering — a step after directory creation — yet an
empty file exists at the target path `/f/r.html` after the failure, refuting
the claim that no file, partial or empty, exists there. -/
theorem C1_counterexample :
    (save ⟨false, false, false, false⟩ (fun s => s) (fun _ => none) []
      ⟨[], []⟩ none none "/home/u" ⟨2020, 1, 2, 3, 4, 5⟩ "now" "T" [.plot "d"]
      (some "/f") (some "r.html") (some "") false true false).result =
      .error (.plottingUnavailable "Plotly library could not be loaded!") ∧
    find_assoc (save ⟨false, false, false, false⟩ (fun s => s)
      (fun _ => none) [] ⟨[], []⟩ none none "/home/u" ⟨2020, 1, 2, 3, 4, 5⟩
      "now" "T" [.plot "d"] (some "/f") (some "r.html") (some "")
      false true false).fs.files "/f/r.html" = some "" := by
  refine ⟨by decide, by decide⟩

/-- C1 witness: the amended statement applied to a concrete save whose
rendering fails on a plot node — the target file exists and is empty. -/
theorem C1_write_discipline_witness :
    (save ⟨false, false, false, false⟩ (fun s => s) (fun _ => none) []
      ⟨[], []⟩ none none "/home/u" ⟨2020, 1, 2, 3, 4, 5⟩ "now" "T2"
      [.plot "d"] (some "/f") (some "r2.html") (some "")
      false true false).result =
      .error (.plottingUnavailable "Plotly library could not be loaded!") ∧
    find_assoc (save ⟨false, false, false, false⟩ (fun s => s)
      (fun _ => none) [] ⟨[], []⟩ none none "/home/u" ⟨2020, 1, 2, 3, 4, 5⟩
      "now" "T2" [.plot "d"] (some "/f") (some "r2.html") (some "")
      false true false).fs.files "/f/r2.html" = some "" := by
  have hres : ∀ ext s : String,
      "/f/r2.html" ≠ path_join "/f" ("." ++ ext ++ s ++ "." ++ ext) := by
    intro ext s h
    rw [path_join, if_neg (by decide)] at h
    have hd := congrArg String.data h
    simp only [String.data_append] at hd
    simp at hd
  exact (C1_write_discipline ⟨false, false, false, false⟩ (fun s => s)
    (fun _ => none) [] ⟨[], []⟩ none none "/home/u" ⟨2020, 1, 2, 3, 4, 5⟩
    "now" "T2" [.plot "d"] (some "/f") (some "r2.html") (some "")
    false true false _ "/f/r2.html" "/f" true false rfl (by decide) rfl rfl
    rfl rfl hres).2.2.1 ⟨["/f"], []⟩ []
    (.plottingUnavailable "Plotly library could not be loaded!") [] rfl rfl
    (by decide)
